import Mathlib

/-!
Shallow embedding of the two feed screens of nostros-webz:
src/frontend/Pages/ReactionsFeed/index.tsx and
src/frontend/Pages/NotificationsFeed/index.tsx.

Each handler of the source is translated into a pure function that, given
the ambient context (database, publicKey, relayPool) and the current
component state, returns the ordered list of effects it performs: state
setters (setNotes, setRefreshing, setPageSize) and relay-pool calls
(subscribe, unsubscribe, unsubscribeAll). Asynchronous store queries
(getReactedNotes, getMentionNotes, getLastReaction, getLastReply) are
external collaborators not contained in the fragment; their results are
passed in as arguments, exactly where the source consumes the resolved
promise value. The component state reached by a handler is obtained by
folding the state setters over the previous state.
-/

namespace Nostros

/-- Event kind integers from nostr-tools used by ReactionsFeed. -/
def kindMetadata : Nat := 0

def kindText : Nat := 1

def kindReaction : Nat := 7

/-- EventKind.textNote used by NotificationsFeed. -/
def kindTextNote : Nat := 1

/-- EventKind.meta used by NotificationsFeed. -/
def kindMeta : Nat := 0

/-- A note row as consumed by the two screens: only the fields the fragment
reads. In the source, id and repost_id may be undefined (the code guards
them with a nullish default), pubkey is a plain string. -/
structure Note where
  id : Option String
  pubkey : String
  created_at : Nat
  repost_id : Option String
deriving DecidableEq, Repr

/-- The filter object passed to relayPool.subscribe, mirroring RelayFilters:
kinds, authors, the e and p tag sets, ids, since, limit. Absent fields
default to empty or none. -/
structure RelayFilters where
  kinds : List Nat := []
  authors : List String := []
  eTags : List String := []
  pTags : List String := []
  ids : List String := []
  since : Option Nat := none
  limit : Option Nat := none
deriving DecidableEq, Repr

/-- One observable effect of a handler: a React state setter or a call on
the shared relay pool. -/
inductive Action where
  | subscribe (name : String) (filters : List RelayFilters)
  | unsubscribe (names : List String)
  | unsubscribeAll
  | setRefreshing (b : Bool)
  | setNotes (ns : List Note)
  | setPageSize (n : Nat)
deriving DecidableEq, Repr

/-- The ambient context of both components: whether the database handle and
the relay pool are present, and the possibly absent viewer public key. -/
structure Env where
  database : Bool
  publicKey : Option String
  relayPool : Bool
deriving DecidableEq, Repr

/-- The React state of one feed component. -/
structure FeedState where
  notes : List Note
  pageSize : Nat
  refreshing : Bool
deriving DecidableEq, Repr

/-- Effect of one action on the component state (pool calls leave it be). -/
def applyAction (s : FeedState) : Action → FeedState
  | Action.setRefreshing b => { s with refreshing := b }
  | Action.setNotes ns => { s with notes := ns }
  | Action.setPageSize n => { s with pageSize := n }
  | _ => s

/-- State after running a whole effect trace. -/
def applyActions (s : FeedState) (as : List Action) : FeedState :=
  as.foldl applyAction s

/-- JavaScript truthiness of a possibly absent string: present and
non-empty. -/
def strTruthy : Option String → Bool
  | none => false
  | some s => decide (s ≠ "")

/-- initialPageSize is the constant 10 in both screens. -/
def initialPageSize : Nat := 10

/-- Scroll metrics delivered to onScroll. -/
structure ScrollEvent where
  contentLength : Nat
  viewportLength : Nat
  scrollOffset : Nat
deriving DecidableEq, Repr

/-- Modelled from the spec: handleInfinityScroll
(src/Functions/NativeFunctions, not in the fragment) is a pure evaluator
returning true iff scrollOffset + viewportLength reaches
contentLength minus a fixed threshold margin. -/
def handleInfinityScroll (margin : Nat) (e : ScrollEvent) : Bool :=
  decide (e.scrollOffset + e.viewportLength ≥ e.contentLength - margin)

namespace ReactionsFeed

/-- The five channel names owned by the ReactionsFeed screen, as retired by
its unsubscribe helper. -/
def channels : List String :=
  ["homepage-contacts-main", "homepage-contacts-meta",
   "homepage-contacts-replies", "homepage-contacts-reactions",
   "homepage-contacts-repost"]

/-- The unsubscribe helper: relayPool?.unsubscribe of the five names. -/
def unsubscribeTrace (env : Env) : List Action :=
  if env.relayPool then [Action.unsubscribe channels] else []

/-- subscribeNotes: early return unless database and publicKey are truthy;
otherwise subscribe homepage-contacts-main with kinds [Reaction],
authors [publicKey], limit pageSize, then setRefreshing false. -/
def subscribeNotes (env : Env) (s : FeedState) : List Action :=
  match env.publicKey with
  | none => []
  | some pk =>
    if env.database = true ∧ pk ≠ "" then
      (if env.relayPool then
        [Action.subscribe "homepage-contacts-main"
          [{ kinds := [kindReaction], authors := [pk],
             limit := some s.pageSize }]]
       else [])
      ++ [Action.setRefreshing false]
    else []

/-- onRefresh: setRefreshing true, unsubscribe the five channels, then
subscribeNotes. -/
def onRefresh (env : Env) (s : FeedState) : List Action :=
  Action.setRefreshing true :: (unsubscribeTrace env ++ subscribeNotes env s)

/-- onScroll: when the infinity-scroll evaluator fires, grow pageSize by
initialPageSize. -/
def onScroll (margin : Nat) (e : ScrollEvent) (s : FeedState) : List Action :=
  if handleInfinityScroll margin e then
    [Action.setPageSize (s.pageSize + initialPageSize)]
  else []

/-- The effect hook on pageSize: when pageSize exceeds initialPageSize,
call subscribeNotes (and nothing else). -/
def pageSizeEffect (env : Env) (s : FeedState) : List Action :=
  if s.pageSize > initialPageSize then subscribeNotes env s else []

/-- loadNotes: guarded by database and publicKey truthiness. The store
query result (storeNotes) and the two latest-timestamp lookups
(lastReaction, lastReply) are resolved promise values passed in. Sets
notes, and when the result is non-empty subscribes metadata, reactions
since lastReaction, replies since lastReply, and, when some note carries a
truthy repost_id, the repost originals by exact id set. -/
def loadNotes (env : Env) (storeNotes : List Note)
    (lastReaction lastReply : Option Nat) : List Action :=
  match env.publicKey with
  | none => []
  | some pk =>
    if env.database = true ∧ pk ≠ "" then
      Action.setNotes storeNotes ::
      (if storeNotes.length > 0 then
        (if env.relayPool then
          [Action.subscribe "homepage-contacts-meta"
            [{ kinds := [kindMetadata],
               authors := storeNotes.map Note.pubkey }]]
         else [])
        ++ (if env.relayPool then
          [Action.subscribe "homepage-contacts-reactions"
            [{ kinds := [kindReaction],
               eTags := storeNotes.map (fun n => n.id.getD ""),
               since := some (lastReaction.getD 0) }]]
         else [])
        ++ (if env.relayPool then
          [Action.subscribe "homepage-contacts-replies"
            [{ kinds := [kindText],
               eTags := storeNotes.map (fun n => n.id.getD ""),
               since := some (lastReply.getD 0) }]]
         else [])
        ++ (if ((storeNotes.filter (fun n => strTruthy n.repost_id)).map
                  (fun n => n.repost_id.getD "")).length > 0 ∧
               env.relayPool = true then
          [Action.subscribe "homepage-contacts-repost"
            [{ kinds := [kindText],
               ids := (storeNotes.filter (fun n => strTruthy n.repost_id)).map
                 (fun n => n.repost_id.getD "") }]]
         else [])
      else [])
    else []

/-- The mount effect: unsubscribe, subscribeNotes, loadNotes. -/
def mount (env : Env) (storeNotes : List Note)
    (lastReaction lastReply : Option Nat) (s : FeedState) : List Action :=
  unsubscribeTrace env ++ subscribeNotes env s
    ++ loadNotes env storeNotes lastReaction lastReply

end ReactionsFeed

namespace NotificationsFeed

/-- subscribeNotes: early return unless database and publicKey are truthy;
otherwise one subscribe of mentions-user with two filters, each limited to
pageSize. -/
def subscribeNotes (env : Env) (s : FeedState) : List Action :=
  match env.publicKey with
  | none => []
  | some pk =>
    if env.database = true ∧ pk ≠ "" then
      (if env.relayPool then
        [Action.subscribe "mentions-user"
          [{ kinds := [kindTextNote], pTags := [pk],
             limit := some s.pageSize },
           { kinds := [kindTextNote], eTags := [pk],
             limit := some s.pageSize }]]
       else [])
    else []

/-- calculateInitialNotes: when database and publicKey are truthy, just
subscribeNotes. -/
def calculateInitialNotes (env : Env) (s : FeedState) : List Action :=
  match env.publicKey with
  | none => []
  | some pk =>
    if env.database = true ∧ pk ≠ "" then subscribeNotes env s else []

/-- loadNotes: guarded by database and publicKey truthiness. Sets notes,
setRefreshing false, then unconditionally subscribes mentions-answers with
a reactions filter on the note ids and a metadata filter on the note
authors. -/
def loadNotes (env : Env) (storeNotes : List Note) : List Action :=
  match env.publicKey with
  | none => []
  | some pk =>
    if env.database = true ∧ pk ≠ "" then
      Action.setNotes storeNotes :: Action.setRefreshing false ::
      (if env.relayPool then
        [Action.subscribe "mentions-answers"
          [{ kinds := [kindReaction],
             eTags := storeNotes.map (fun n => n.id.getD "") },
           { kinds := [kindMeta],
             authors := storeNotes.map Note.pubkey }]]
       else [])
    else []

/-- onRefresh: setRefreshing true, relayPool?.unsubscribeAll, then when
relayPool and publicKey are truthy, calculateInitialNotes followed by
loadNotes. -/
def onRefresh (env : Env) (storeNotes : List Note) (s : FeedState) :
    List Action :=
  Action.setRefreshing true ::
  ((if env.relayPool then [Action.unsubscribeAll] else [])
    ++ (match env.publicKey with
        | none => []
        | some pk =>
          if env.relayPool = true ∧ pk ≠ "" then
            calculateInitialNotes env s ++ loadNotes env storeNotes
          else []))

/-- The effect hook on pageSize: when pageSize exceeds initialPageSize,
relayPool?.unsubscribeAll, subscribeNotes, loadNotes. -/
def pageSizeEffect (env : Env) (storeNotes : List Note) (s : FeedState) :
    List Action :=
  if s.pageSize > initialPageSize then
    (if env.relayPool then [Action.unsubscribeAll] else [])
      ++ subscribeNotes env s ++ loadNotes env storeNotes
  else []

/-- The mount effect: relayPool?.unsubscribeAll, then when relayPool and
publicKey are truthy, calculateInitialNotes followed by loadNotes. -/
def mount (env : Env) (storeNotes : List Note) (s : FeedState) :
    List Action :=
  (if env.relayPool then [Action.unsubscribeAll] else [])
    ++ (match env.publicKey with
        | none => []
        | some pk =>
          if env.relayPool = true ∧ pk ≠ "" then
            calculateInitialNotes env s ++ loadNotes env storeNotes
          else [])

/-- onScroll: same infinity-scroll growth as ReactionsFeed. -/
def onScroll (margin : Nat) (e : ScrollEvent) (s : FeedState) : List Action :=
  if handleInfinityScroll margin e then
    [Action.setPageSize (s.pageSize + initialPageSize)]
  else []

end NotificationsFeed

/-- Modelled from the spec: the RelayPool (src/lib/nostr/RelayPool, not in
the fragment) keeps at most one live subscription per channel name;
issuing a new subscription under an existing name implicitly retires the
prior one, unsubscribe retires the given names, unsubscribeAll retires
every subscription; state setters do not touch the pool. -/
def poolApply (p : List (String × List RelayFilters)) :
    Action → List (String × List RelayFilters)
  | Action.subscribe name fs => (name, fs) :: p.filter (fun e => e.1 ≠ name)
  | Action.unsubscribe names => p.filter (fun e => ¬ names.contains e.1)
  | Action.unsubscribeAll => []
  | _ => p

/-- Pool state after a whole effect trace. -/
def poolRun (p : List (String × List RelayFilters)) (as : List Action) :
    List (String × List RelayFilters) :=
  as.foldl poolApply p

/-- Every intermediate pool state along an effect trace, initial state
included. -/
def poolStates (p : List (String × List RelayFilters)) (as : List Action) :
    List (List (String × List RelayFilters)) :=
  as.scanl poolApply p

/-- Whether an action is a subscribe call. -/
def isSubscribe : Action → Bool
  | Action.subscribe _ _ => true
  | _ => false

/-- Whether an action is a by-name unsubscribe call. -/
def isUnsubscribeByName : Action → Bool
  | Action.unsubscribe _ => true
  | _ => false

/-- Whether an action is a setNotes state write. -/
def isSetNotes : Action → Bool
  | Action.setNotes _ => true
  | _ => false

/-- The channel names of the subscribe calls of a trace, in order. -/
def subNames (as : List Action) : List String :=
  as.filterMap fun a =>
    match a with
    | Action.subscribe n _ => some n
    | _ => none

/-- The authors field of the first filter of the first subscribe call of
the given channel name in a trace. -/
def firstFilterAuthors (name : String) (as : List Action) :
    Option (List String) :=
  as.findSome? fun a =>
    match a with
    | Action.subscribe n (f :: _) => if n = name then some f.authors else none
    | _ => none

/-- The authors field of the second filter of the first subscribe call of
the given channel name in a trace. -/
def secondFilterAuthors (name : String) (as : List Action) :
    Option (List String) :=
  as.findSome? fun a =>
    match a with
    | Action.subscribe n (_ :: f :: _) =>
      if n = name then some f.authors else none
    | _ => none

/-- The filters of the first subscribe call of the given channel name in a
trace. -/
def subFiltersOf (name : String) (as : List Action) :
    Option (List RelayFilters) :=
  as.findSome? fun a =>
    match a with
    | Action.subscribe n fs => if n = name then some fs else none
    | _ => none

/-- An action only addresses pool entries of the allowed name list: a
subscribe of an allowed name, a by-name unsubscribe of allowed names, or
no pool call at all (unsubscribeAll addresses everything). -/
def touchesOnly (allowed : List String) : Action → Prop
  | Action.subscribe n _ => n ∈ allowed
  | Action.unsubscribe ns => ∀ m ∈ ns, m ∈ allowed
  | Action.unsubscribeAll => False
  | _ => True

/-- One pagination step of ReactionsFeed: the state after its onScroll
handler ran on one scroll event. -/
def scrollStep (margin : Nat) (s : FeedState) (e : ScrollEvent) : FeedState :=
  applyActions s (ReactionsFeed.onScroll margin e s)

/-- The sequence of pageSize values along a series of scroll events,
initial value included. -/
def pageSizeTrace (margin : Nat) (s : FeedState) (evs : List ScrollEvent) :
    List Nat :=
  (evs.scanl (scrollStep margin) s).map FeedState.pageSize

/-- Sample note used by concrete witness instances. -/
def noteA : Note := { id := some "i1", pubkey := "p1", created_at := 1, repost_id := none }

/-- Sample note used by concrete witness instances. -/
def noteB : Note := { id := some "i2", pubkey := "p2", created_at := 2, repost_id := none }

/-- Sample note used by concrete witness instances. -/
def noteC : Note := { id := some "i3", pubkey := "p3", created_at := 3, repost_id := none }

/-- Sample note carrying a repost reference, for witness instances. -/
def noteRep : Note := { id := some "i4", pubkey := "p4", created_at := 4, repost_id := some "r4" }

/-- Sample note with an absent id, for witness instances. -/
def noteNoId : Note := { id := none, pubkey := "p5", created_at := 5, repost_id := none }

theorem mem_subscribeNotesR {env : Env} {s : FeedState} {a : Action}
    (ha : a ∈ ReactionsFeed.subscribeNotes env s) :
    a = Action.setRefreshing false ∨
      ∃ fs, a = Action.subscribe "homepage-contacts-main" fs := by
  unfold ReactionsFeed.subscribeNotes at ha
  cases h : env.publicKey with
  | none => rw [h] at ha; simp at ha
  | some pk =>
    rw [h] at ha
    split_ifs at ha <;> simp_all
    tauto

theorem mem_loadNotesR {env : Env} {ns : List Note} {lr lp : Option Nat}
    {a : Action} (ha : a ∈ ReactionsFeed.loadNotes env ns lr lp) :
    (∃ ms, a = Action.setNotes ms) ∨
      (∃ fs, a = Action.subscribe "homepage-contacts-meta" fs) ∨
      (∃ fs, a = Action.subscribe "homepage-contacts-reactions" fs) ∨
      (∃ fs, a = Action.subscribe "homepage-contacts-replies" fs) ∨
      (∃ fs, a = Action.subscribe "homepage-contacts-repost" fs) := by
  unfold ReactionsFeed.loadNotes at ha
  cases h : env.publicKey with
  | none => rw [h] at ha; simp at ha
  | some pk =>
    rw [h] at ha
    split_ifs at ha <;> simp_all
    all_goals obtain ⟨-, ha⟩ := ha
    all_goals rcases ha with rfl | ha
    all_goals try exact Or.inl ⟨_, rfl⟩
    all_goals rcases ha with rfl | ha
    all_goals try exact Or.inr (Or.inl ⟨_, rfl⟩)
    all_goals rcases ha with rfl | ha
    all_goals try exact Or.inr (Or.inr (Or.inl ⟨_, rfl⟩))
    all_goals rcases ha with rfl | rfl
    all_goals try exact Or.inr (Or.inr (Or.inr (Or.inl ⟨_, rfl⟩)))
    all_goals exact Or.inr (Or.inr (Or.inr (Or.inr ⟨_, rfl⟩)))

theorem applyActions_refreshing_of_no_set {as : List Action}
    (h : ∀ b, Action.setRefreshing b ∉ as) (s : FeedState) :
    (applyActions s as).refreshing = s.refreshing := by
  induction as generalizing s with
  | nil => rfl
  | cons a t ih =>
    have ht : ∀ b, Action.setRefreshing b ∉ t := fun b hb =>
      h b (List.mem_cons_of_mem a hb)
    have ha : (applyAction s a).refreshing = s.refreshing := by
      cases a with
      | setRefreshing b => exact absurd (List.mem_cons_self _ _) (h b)
      | _ => rfl
    rw [applyActions, List.foldl_cons, ← applyActions, ih ht, ha]

theorem applyActions_pageSize_of_no_set {as : List Action}
    (h : ∀ n, Action.setPageSize n ∉ as) (s : FeedState) :
    (applyActions s as).pageSize = s.pageSize := by
  induction as generalizing s with
  | nil => rfl
  | cons a t ih =>
    have ht : ∀ n, Action.setPageSize n ∉ t := fun n hn =>
      h n (List.mem_cons_of_mem a hn)
    have ha : (applyAction s a).pageSize = s.pageSize := by
      cases a with
      | setPageSize n => exact absurd (List.mem_cons_self _ _) (h n)
      | _ => rfl
    rw [applyActions, List.foldl_cons, ← applyActions, ih ht, ha]

theorem poolApply_keys_nodup {p : List (String × List RelayFilters)}
    {a : Action} (h : (p.map Prod.fst).Nodup) :
    ((poolApply p a).map Prod.fst).Nodup := by
  cases a with
  | subscribe n fs =>
    refine List.Nodup.cons ?_ (((List.filter_sublist p).map Prod.fst).nodup h)
    intro hmem
    rcases List.mem_map.mp hmem with ⟨e, he, hfst⟩
    exact (of_decide_eq_true (List.mem_filter.mp he).2) hfst
  | unsubscribe ns => exact ((List.filter_sublist p).map Prod.fst).nodup h
  | unsubscribeAll => exact List.nodup_nil
  | setRefreshing b => exact h
  | setNotes ms => exact h
  | setPageSize m => exact h

theorem poolStates_keys_nodup {as : List Action}
    {p : List (String × List RelayFilters)} (h : (p.map Prod.fst).Nodup) :
    ∀ q ∈ poolStates p as, (q.map Prod.fst).Nodup := by
  induction as generalizing p with
  | nil =>
    intro q hq
    rw [poolStates, List.scanl] at hq
    simp at hq
    exact hq ▸ h
  | cons a t ih =>
    intro q hq
    rw [poolStates, List.scanl] at hq
    rcases List.mem_cons.mp hq with rfl | hq
    · exact h
    · exact ih (poolApply_keys_nodup h) q hq

theorem poolApply_preserves {allowed : List String}
    {p : List (String × List RelayFilters)} {a : Action}
    {x : String × List RelayFilters} (hx : x ∈ p)
    (h : touchesOnly allowed a) (hname : x.1 ∉ allowed) :
    x ∈ poolApply p a := by
  cases a with
  | subscribe n fs =>
    have : x.1 ≠ n := fun he => hname (he ▸ h)
    exact List.mem_cons_of_mem _ (List.mem_filter.mpr ⟨hx, decide_eq_true this⟩)
  | unsubscribe ns =>
    refine List.mem_filter.mpr ⟨hx, ?_⟩
    have hnm : x.1 ∉ ns := fun hc => hname (h x.1 hc)
    simp [hnm]
  | unsubscribeAll => exact absurd h not_false
  | setRefreshing b => exact hx
  | setNotes ms => exact hx
  | setPageSize m => exact hx

theorem poolRun_preserves {allowed : List String} {as : List Action}
    (hall : ∀ a ∈ as, touchesOnly allowed a)
    {p : List (String × List RelayFilters)}
    {x : String × List RelayFilters} (hx : x ∈ p) (hname : x.1 ∉ allowed) :
    x ∈ poolRun p as := by
  induction as generalizing p with
  | nil => exact hx
  | cons a t ih =>
    rw [poolRun, List.foldl_cons, ← poolRun]
    exact ih (fun b hb => hall b (List.mem_cons_of_mem a hb))
      (poolApply_preserves hx (hall a (List.mem_cons_self _ _)) hname)

theorem subscribeNotesR_trace (pool : Bool) (p : String) (hp : p ≠ "")
    (s : FeedState) :
    ReactionsFeed.subscribeNotes ⟨true, some p, pool⟩ s =
      (if pool then
        [Action.subscribe "homepage-contacts-main"
          [{ kinds := [kindReaction], authors := [p],
             limit := some s.pageSize }]]
       else [])
      ++ [Action.setRefreshing false] := by
  simp [ReactionsFeed.subscribeNotes, hp]

theorem subscribeNotesN_trace (pool : Bool) (p : String) (hp : p ≠ "")
    (s : FeedState) :
    NotificationsFeed.subscribeNotes ⟨true, some p, pool⟩ s =
      (if pool then
        [Action.subscribe "mentions-user"
          [{ kinds := [kindTextNote], pTags := [p],
             limit := some s.pageSize },
           { kinds := [kindTextNote], eTags := [p],
             limit := some s.pageSize }]]
       else []) := by
  simp [NotificationsFeed.subscribeNotes, hp]

theorem loadNotesN_trace (pool : Bool) (p : String) (hp : p ≠ "")
    (ns : List Note) :
    NotificationsFeed.loadNotes ⟨true, some p, pool⟩ ns =
      Action.setNotes ns :: Action.setRefreshing false ::
      (if pool then
        [Action.subscribe "mentions-answers"
          [{ kinds := [kindReaction],
             eTags := ns.map (fun n => n.id.getD "") },
           { kinds := [kindMeta], authors := ns.map Note.pubkey }]]
       else []) := by
  simp [NotificationsFeed.loadNotes, hp]

theorem repost_cond_iff (ns : List Note) :
    0 < (ns.filter (fun n => strTruthy n.repost_id)).length ↔
      ∃ n ∈ ns, strTruthy n.repost_id = true := by
  rw [List.length_pos_iff_exists_mem]
  constructor
  · rintro ⟨n, hn⟩
    exact ⟨n, (List.mem_filter.mp hn).1, (List.mem_filter.mp hn).2⟩
  · rintro ⟨n, hn, hf⟩
    exact ⟨n, List.mem_filter.mpr ⟨hn, hf⟩⟩

theorem loadNotesR_trace_repost (p : String) (hp : p ≠ "") {ns : List Note}
    (hne : 0 < ns.length) (lr lp : Option Nat)
    (hrep : ∃ n ∈ ns, strTruthy n.repost_id = true) :
    ReactionsFeed.loadNotes ⟨true, some p, true⟩ ns lr lp =
      [Action.setNotes ns,
       Action.subscribe "homepage-contacts-meta"
         [{ kinds := [kindMetadata], authors := ns.map Note.pubkey }],
       Action.subscribe "homepage-contacts-reactions"
         [{ kinds := [kindReaction],
            eTags := ns.map (fun n => n.id.getD ""),
            since := some (lr.getD 0) }],
       Action.subscribe "homepage-contacts-replies"
         [{ kinds := [kindText],
            eTags := ns.map (fun n => n.id.getD ""),
            since := some (lp.getD 0) }],
       Action.subscribe "homepage-contacts-repost"
         [{ kinds := [kindText],
            ids := (ns.filter (fun n => strTruthy n.repost_id)).map
              (fun n => n.repost_id.getD "") }]] := by
  have hc : 0 < ((ns.filter (fun n => strTruthy n.repost_id)).map
      (fun n => n.repost_id.getD "")).length := by
    rw [List.length_map]
    exact (repost_cond_iff ns).mpr hrep
  simp [ReactionsFeed.loadNotes, hp, hne, hc]
  exact hrep

theorem loadNotesR_trace_norepost (p : String) (hp : p ≠ "") {ns : List Note}
    (hne : 0 < ns.length) (lr lp : Option Nat)
    (hrep : ¬ ∃ n ∈ ns, strTruthy n.repost_id = true) :
    ReactionsFeed.loadNotes ⟨true, some p, true⟩ ns lr lp =
      [Action.setNotes ns,
       Action.subscribe "homepage-contacts-meta"
         [{ kinds := [kindMetadata], authors := ns.map Note.pubkey }],
       Action.subscribe "homepage-contacts-reactions"
         [{ kinds := [kindReaction],
            eTags := ns.map (fun n => n.id.getD ""),
            since := some (lr.getD 0) }],
       Action.subscribe "homepage-contacts-replies"
         [{ kinds := [kindText],
            eTags := ns.map (fun n => n.id.getD ""),
            since := some (lp.getD 0) }]] := by
  have hc : ¬ 0 < ((ns.filter (fun n => strTruthy n.repost_id)).map
      (fun n => n.repost_id.getD "")).length := by
    rw [List.length_map]
    exact fun h => hrep ((repost_cond_iff ns).mp h)
  push_neg at hrep
  simp only [Bool.not_eq_true] at hrep
  simp [ReactionsFeed.loadNotes, hp, hne, hc]
  exact hrep

/-- Claim C1, counterexample: in NotificationsFeed, an invocation of
loadNotes in which the store query returns zero items still issues the
mentions-answers enrichment subscription, contradicting the claim that a
zero-result load never issues enrichment subscriptions. -/
theorem c1_counterexample :
    (NotificationsFeed.loadNotes
      { database := true, publicKey := some "A", relayPool := true }
      []).filter isSubscribe ≠ [] := by
  decide

/-- Claim C1 (amended): when the store query of loadNotes returns zero
items, both feeds set the materialized notes to the empty list; the
ReactionsFeed invocation issues no enrichment subscription at all, while
the NotificationsFeed one still issues its single mentions-answers
enrichment subscription, with empty id and author lists. -/
theorem c1_zero_result_load (pool : Bool) (p : String) (hp : p ≠ "")
    (lr lp : Option Nat) (s : FeedState) :
    (applyActions s
      (ReactionsFeed.loadNotes ⟨true, some p, pool⟩ [] lr lp)).notes = [] ∧
    (ReactionsFeed.loadNotes ⟨true, some p, pool⟩ [] lr lp).filter
      isSubscribe = [] ∧
    (applyActions s (NotificationsFeed.loadNotes ⟨true, some p, pool⟩
      [])).notes = [] ∧
    (NotificationsFeed.loadNotes ⟨true, some p, true⟩ []).filter
      isSubscribe =
      [Action.subscribe "mentions-answers"
        [{ kinds := [kindReaction] }, { kinds := [kindMeta] }]] := by
  refine ⟨?_, ?_, ?_, ?_⟩
  · simp [ReactionsFeed.loadNotes, hp, applyActions, applyAction]
  · simp [ReactionsFeed.loadNotes, hp, isSubscribe]
  · rw [loadNotesN_trace pool p hp]
    cases pool <;> simp [applyActions, applyAction]
  · rw [loadNotesN_trace true p hp]
    simp [isSubscribe]

/-- Witness for c1_zero_result_load at pool true, publicKey A, empty
store result. -/
theorem c1_witness :
    ("A" : String) ≠ "" ∧
    ((applyActions ⟨[], 10, false⟩
      (ReactionsFeed.loadNotes ⟨true, some "A", true⟩ [] none none)).notes
        = [] ∧
     (ReactionsFeed.loadNotes ⟨true, some "A", true⟩ [] none none).filter
       isSubscribe = [] ∧
     (applyActions ⟨[], 10, false⟩
       (NotificationsFeed.loadNotes ⟨true, some "A", true⟩ [])).notes
        = [] ∧
     (NotificationsFeed.loadNotes ⟨true, some "A", true⟩ []).filter
       isSubscribe =
       [Action.subscribe "mentions-answers"
         [{ kinds := [kindReaction] }, { kinds := [kindMeta] }]]) :=
  ⟨by decide, c1_zero_result_load true "A" (by decide) none none ⟨[], 10, false⟩⟩

/-- Claim C2, counterexample: a ReactionsFeed loadNotes invocation whose
store query returns one item carrying a repost reference issues four
enrichment subscriptions (metadata, reactions, replies, repost originals),
contradicting the claimed bound of at most three. -/
theorem c2_counterexample :
    ¬ ((subNames (ReactionsFeed.loadNotes
      { database := true, publicKey := some "A", relayPool := true }
      [{ id := some "id1", pubkey := "pk1", created_at := 1,
         repost_id := some "rid1" }] none none)).length ≤ 3) := by
  decide

/-- Claim C2 (amended): a ReactionsFeed loadNotes invocation with a
non-empty store result issues at most four enrichment subscriptions, and
its repost-originals subscription is issued iff at least one returned item
carries a truthy repost reference; a NotificationsFeed loadNotes
invocation issues exactly one enrichment subscription and never a
repost-originals one. -/
theorem c2_enrichment_bound (p : String) (hp : p ≠ "") (ns : List Note)
    (hne : ns ≠ []) (lr lp : Option Nat) :
    (subNames (ReactionsFeed.loadNotes ⟨true, some p, true⟩
      ns lr lp)).length ≤ 4 ∧
    ("homepage-contacts-repost" ∈
        subNames (ReactionsFeed.loadNotes ⟨true, some p, true⟩ ns lr lp) ↔
      ∃ n ∈ ns, strTruthy n.repost_id = true) ∧
    (subNames (NotificationsFeed.loadNotes ⟨true, some p, true⟩
      ns)).length = 1 ∧
    "homepage-contacts-repost" ∉
      subNames (NotificationsFeed.loadNotes ⟨true, some p, true⟩ ns) := by
  have hlen : 0 < ns.length := List.length_pos.mpr hne
  by_cases hrep : ∃ n ∈ ns, strTruthy n.repost_id = true
  · rw [loadNotesR_trace_repost p hp hlen lr lp hrep,
      loadNotesN_trace true p hp]
    simp [subNames, hrep]
  · rw [loadNotesR_trace_norepost p hp hlen lr lp hrep,
      loadNotesN_trace true p hp]
    simp [subNames, hrep]

/-- Witness for c2_enrichment_bound at publicKey A and a two-item store
result whose second item carries a repost reference. -/
theorem c2_witness :
    (("A" : String) ≠ "" ∧
      ([{ id := some "id1", pubkey := "pk1", created_at := 1,
          repost_id := none },
        { id := some "id2", pubkey := "pk2", created_at := 2,
          repost_id := some "rid2" }] : List Note) ≠ []) ∧
    ((subNames (ReactionsFeed.loadNotes ⟨true, some "A", true⟩
      [{ id := some "id1", pubkey := "pk1", created_at := 1,
         repost_id := none },
       { id := some "id2", pubkey := "pk2", created_at := 2,
         repost_id := some "rid2" }] none none)).length ≤ 4 ∧
    ("homepage-contacts-repost" ∈
        subNames (ReactionsFeed.loadNotes ⟨true, some "A", true⟩
          [{ id := some "id1", pubkey := "pk1", created_at := 1,
             repost_id := none },
           { id := some "id2", pubkey := "pk2", created_at := 2,
             repost_id := some "rid2" }] none none) ↔
      ∃ n ∈ ([{ id := some "id1", pubkey := "pk1", created_at := 1,
                repost_id := none },
              { id := some "id2", pubkey := "pk2", created_at := 2,
                repost_id := some "rid2" }] : List Note),
        strTruthy n.repost_id = true) ∧
    (subNames (NotificationsFeed.loadNotes ⟨true, some "A", true⟩
      [{ id := some "id1", pubkey := "pk1", created_at := 1,
         repost_id := none },
       { id := some "id2", pubkey := "pk2", created_at := 2,
         repost_id := some "rid2" }])).length = 1 ∧
    "homepage-contacts-repost" ∉
      subNames (NotificationsFeed.loadNotes ⟨true, some "A", true⟩
        [{ id := some "id1", pubkey := "pk1", created_at := 1,
           repost_id := none },
         { id := some "id2", pubkey := "pk2", created_at := 2,
           repost_id := some "rid2" }])) :=
  ⟨⟨by decide, by decide⟩,
    c2_enrichment_bound "A" (by decide) _ (by decide) none none⟩

/-- Claim C3, counterexample: in NotificationsFeed, growing pageSize past
initialPageSize makes the pageSize effect hook itself invoke loadNotes, so
the materialized notes update within that very effect rather than only
later on the external data-change signal. -/
theorem c3_counterexample :
    (applyActions ⟨[], 20, false⟩
      (NotificationsFeed.pageSizeEffect
        { database := true, publicKey := some "A", relayPool := true }
        [{ id := some "id1", pubkey := "pk1", created_at := 1,
           repost_id := none }]
        ⟨[], 20, false⟩)).notes ≠ [] := by
  decide

/-- Claim C3 (amended): a firing scroll trigger grows pageSize by exactly
initialPageSize; in ReactionsFeed the pageSize effect alone then reissues
the primary subscription at the new limit and performs no load (it never
writes notes); in NotificationsFeed the pageSize effect additionally
retires every pool subscription and invokes loadNotes directly, writing
notes at once. -/
theorem c3_page_growth (margin : Nat) (e : ScrollEvent)
    (he : handleInfinityScroll margin e = true)
    (p : String) (hp : p ≠ "") (ns : List Note) (s : FeedState)
    (hgt : s.pageSize > initialPageSize) :
    (applyActions s (ReactionsFeed.onScroll margin e s)).pageSize =
      s.pageSize + initialPageSize ∧
    ReactionsFeed.pageSizeEffect ⟨true, some p, true⟩ s =
      [Action.subscribe "homepage-contacts-main"
         [{ kinds := [kindReaction], authors := [p],
            limit := some s.pageSize }],
       Action.setRefreshing false] ∧
    (∀ ms, Action.setNotes ms ∉
      ReactionsFeed.pageSizeEffect ⟨true, some p, true⟩ s) ∧
    NotificationsFeed.pageSizeEffect ⟨true, some p, true⟩ ns s =
      [Action.unsubscribeAll,
       Action.subscribe "mentions-user"
         [{ kinds := [kindTextNote], pTags := [p],
            limit := some s.pageSize },
          { kinds := [kindTextNote], eTags := [p],
            limit := some s.pageSize }],
       Action.setNotes ns, Action.setRefreshing false,
       Action.subscribe "mentions-answers"
         [{ kinds := [kindReaction],
            eTags := ns.map (fun n => n.id.getD "") },
          { kinds := [kindMeta], authors := ns.map Note.pubkey }]] := by
  have hR : ReactionsFeed.pageSizeEffect ⟨true, some p, true⟩ s =
      [Action.subscribe "homepage-contacts-main"
         [{ kinds := [kindReaction], authors := [p],
            limit := some s.pageSize }],
       Action.setRefreshing false] := by
    unfold ReactionsFeed.pageSizeEffect
    rw [if_pos hgt, subscribeNotesR_trace true p hp s]
    simp
  refine ⟨?_, hR, ?_, ?_⟩
  · simp [ReactionsFeed.onScroll, he, applyActions, applyAction]
  · intro ms hm
    rw [hR] at hm
    simp at hm
  · unfold NotificationsFeed.pageSizeEffect
    rw [if_pos hgt, subscribeNotesN_trace true p hp s,
      loadNotesN_trace true p hp ns]
    simp

/-- Witness for c3_page_growth: a firing scroll event, publicKey A, one
store item, pageSize already grown to 20. -/
theorem c3_witness :
    (handleInfinityScroll 0 ⟨100, 50, 60⟩ = true ∧ ("A" : String) ≠ "" ∧
      (20 : Nat) > initialPageSize) ∧
    ((applyActions ⟨[], 20, false⟩
      (ReactionsFeed.onScroll 0 ⟨100, 50, 60⟩ ⟨[], 20, false⟩)).pageSize =
        20 + initialPageSize ∧
    ReactionsFeed.pageSizeEffect ⟨true, some "A", true⟩ ⟨[], 20, false⟩ =
      [Action.subscribe "homepage-contacts-main"
         [{ kinds := [kindReaction], authors := ["A"],
            limit := some 20 }],
       Action.setRefreshing false] ∧
    (∀ ms, Action.setNotes ms ∉
      ReactionsFeed.pageSizeEffect ⟨true, some "A", true⟩
        ⟨[], 20, false⟩) ∧
    NotificationsFeed.pageSizeEffect ⟨true, some "A", true⟩
      [{ id := some "id1", pubkey := "pk1", created_at := 1,
         repost_id := none }] ⟨[], 20, false⟩ =
      [Action.unsubscribeAll,
       Action.subscribe "mentions-user"
         [{ kinds := [kindTextNote], pTags := ["A"], limit := some 20 },
          { kinds := [kindTextNote], eTags := ["A"], limit := some 20 }],
       Action.setNotes
         [{ id := some "id1", pubkey := "pk1", created_at := 1,
            repost_id := none }],
       Action.setRefreshing false,
       Action.subscribe "mentions-answers"
         [{ kinds := [kindReaction], eTags := ["id1"] },
          { kinds := [kindMeta], authors := ["pk1"] }]]) :=
  ⟨⟨by decide, by decide, by decide⟩,
    c3_page_growth 0 ⟨100, 50, 60⟩ (by decide) "A" (by decide)
      [{ id := some "id1", pubkey := "pk1", created_at := 1,
         repost_id := none }] ⟨[], 20, false⟩ (by decide)⟩

theorem onRefreshR_trace (p : String) (hp : p ≠ "") (s : FeedState) :
    ReactionsFeed.onRefresh ⟨true, some p, true⟩ s =
      [Action.setRefreshing true,
       Action.unsubscribe ReactionsFeed.channels,
       Action.subscribe "homepage-contacts-main"
         [{ kinds := [kindReaction], authors := [p],
            limit := some s.pageSize }],
       Action.setRefreshing false] := by
  unfold ReactionsFeed.onRefresh ReactionsFeed.unsubscribeTrace
  rw [subscribeNotesR_trace true p hp s]
  simp

theorem onRefreshN_trace (p : String) (hp : p ≠ "") (ns : List Note)
    (s : FeedState) :
    NotificationsFeed.onRefresh ⟨true, some p, true⟩ ns s =
      [Action.setRefreshing true, Action.unsubscribeAll,
       Action.subscribe "mentions-user"
         [{ kinds := [kindTextNote], pTags := [p],
            limit := some s.pageSize },
          { kinds := [kindTextNote], eTags := [p],
            limit := some s.pageSize }],
       Action.setNotes ns, Action.setRefreshing false,
       Action.subscribe "mentions-answers"
         [{ kinds := [kindReaction],
            eTags := ns.map (fun n => n.id.getD "") },
          { kinds := [kindMeta], authors := ns.map Note.pubkey }]] := by
  unfold NotificationsFeed.onRefresh NotificationsFeed.calculateInitialNotes
  simp [hp, subscribeNotesN_trace true p hp s, loadNotesN_trace true p hp ns]

/-- Claim C4, counterexample: a ReactionsFeed loadNotes invocation whose
store query resolves leaves the loading flag untouched (it stays true),
contradicting the claim that every load invocation unconditionally resets
loading to false at the end. -/
theorem c4_counterexample :
    (applyActions ⟨[], 10, true⟩
      (ReactionsFeed.loadNotes
        { database := true, publicKey := some "A", relayPool := true }
        [] none none)).refreshing = true := by
  decide

/-- Claim C4 (amended): a NotificationsFeed loadNotes invocation whose
store query resolves resets loading to false regardless of the result
count; a ReactionsFeed loadNotes invocation leaves the loading flag
unchanged — in that screen the reset lives in subscribeNotes instead. -/
theorem c4_loading_reset (pool : Bool) (p : String) (hp : p ≠ "")
    (ns : List Note) (lr lp : Option Nat) (s : FeedState) :
    (applyActions s
      (NotificationsFeed.loadNotes ⟨true, some p, pool⟩ ns)).refreshing
        = false ∧
    (applyActions s
      (ReactionsFeed.loadNotes ⟨true, some p, pool⟩ ns lr lp)).refreshing
        = s.refreshing := by
  constructor
  · rw [loadNotesN_trace pool p hp ns]
    cases pool <;> simp [applyActions, applyAction]
  · refine applyActions_refreshing_of_no_set (fun b hb => ?_) s
    rcases mem_loadNotesR hb with ⟨ms, h⟩ | ⟨fs, h⟩ | ⟨fs, h⟩ | ⟨fs, h⟩ |
      ⟨fs, h⟩ <;> simp at h

/-- Witness for c4_loading_reset: loading stays true through a
ReactionsFeed load and resets through a NotificationsFeed load. -/
theorem c4_witness :
    ("A" : String) ≠ "" ∧
    ((applyActions ⟨[], 10, true⟩
      (NotificationsFeed.loadNotes ⟨true, some "A", true⟩ [])).refreshing
        = false ∧
     (applyActions ⟨[], 10, true⟩
      (ReactionsFeed.loadNotes ⟨true, some "A", true⟩ [] none
        none)).refreshing = (⟨[], 10, true⟩ : FeedState).refreshing) :=
  ⟨by decide, c4_loading_reset true "A" (by decide) [] none none
    ⟨[], 10, true⟩⟩

/-- Claim C5, counterexample: a NotificationsFeed onRefresh invocation
reissues the primary mentions-user subscription but never issues a by-name
unsubscribe — it retires via unsubscribeAll — contradicting the claim that
every onRefresh retires the primary subscription by name. -/
theorem c5_counterexample :
    (NotificationsFeed.onRefresh
      { database := true, publicKey := some "A", relayPool := true }
      [] ⟨[], 10, false⟩).any isUnsubscribeByName = false ∧
    "mentions-user" ∈ subNames (NotificationsFeed.onRefresh
      { database := true, publicKey := some "A", relayPool := true }
      [] ⟨[], 10, false⟩) := by
  decide

/-- Claim C5 (amended): every onRefresh invocation sets loading to true as
its first effect, reissues the primary subscription at the current
(unchanged) pageSize, and leaves pageSize unreset; ReactionsFeed retires
its channels by name first, while NotificationsFeed retires every pool
subscription via unsubscribeAll instead of a by-name retirement. -/
theorem c5_on_refresh (p : String) (hp : p ≠ "") (ns : List Note)
    (s : FeedState) :
    (ReactionsFeed.onRefresh ⟨true, some p, true⟩ s).head? =
      some (Action.setRefreshing true) ∧
    (NotificationsFeed.onRefresh ⟨true, some p, true⟩ ns s).head? =
      some (Action.setRefreshing true) ∧
    Action.unsubscribe ReactionsFeed.channels ∈
      ReactionsFeed.onRefresh ⟨true, some p, true⟩ s ∧
    "homepage-contacts-main" ∈ ReactionsFeed.channels ∧
    Action.subscribe "homepage-contacts-main"
      [{ kinds := [kindReaction], authors := [p],
         limit := some s.pageSize }] ∈
      ReactionsFeed.onRefresh ⟨true, some p, true⟩ s ∧
    Action.unsubscribeAll ∈
      NotificationsFeed.onRefresh ⟨true, some p, true⟩ ns s ∧
    Action.subscribe "mentions-user"
      [{ kinds := [kindTextNote], pTags := [p], limit := some s.pageSize },
       { kinds := [kindTextNote], eTags := [p],
         limit := some s.pageSize }] ∈
      NotificationsFeed.onRefresh ⟨true, some p, true⟩ ns s ∧
    (applyActions s
      (ReactionsFeed.onRefresh ⟨true, some p, true⟩ s)).pageSize =
        s.pageSize ∧
    (applyActions s
      (NotificationsFeed.onRefresh ⟨true, some p, true⟩ ns s)).pageSize =
        s.pageSize := by
  rw [onRefreshR_trace p hp s, onRefreshN_trace p hp ns s]
  refine ⟨rfl, rfl, ?_, ?_, ?_, ?_, ?_, ?_, ?_⟩ <;>
    simp [ReactionsFeed.channels, applyActions, applyAction]

/-- Witness for c5_on_refresh at publicKey A, empty store result, pageSize
30. -/
theorem c5_witness :
    ("A" : String) ≠ "" ∧
    ((ReactionsFeed.onRefresh ⟨true, some "A", true⟩
        ⟨[], 30, false⟩).head? = some (Action.setRefreshing true) ∧
     (NotificationsFeed.onRefresh ⟨true, some "A", true⟩ []
        ⟨[], 30, false⟩).head? = some (Action.setRefreshing true) ∧
     Action.unsubscribe ReactionsFeed.channels ∈
       ReactionsFeed.onRefresh ⟨true, some "A", true⟩ ⟨[], 30, false⟩ ∧
     "homepage-contacts-main" ∈ ReactionsFeed.channels ∧
     Action.subscribe "homepage-contacts-main"
       [{ kinds := [kindReaction], authors := ["A"], limit := some 30 }] ∈
       ReactionsFeed.onRefresh ⟨true, some "A", true⟩ ⟨[], 30, false⟩ ∧
     Action.unsubscribeAll ∈
       NotificationsFeed.onRefresh ⟨true, some "A", true⟩ []
         ⟨[], 30, false⟩ ∧
     Action.subscribe "mentions-user"
       [{ kinds := [kindTextNote], pTags := ["A"], limit := some 30 },
        { kinds := [kindTextNote], eTags := ["A"], limit := some 30 }] ∈
       NotificationsFeed.onRefresh ⟨true, some "A", true⟩ []
         ⟨[], 30, false⟩ ∧
     (applyActions ⟨[], 30, false⟩
       (ReactionsFeed.onRefresh ⟨true, some "A", true⟩
         ⟨[], 30, false⟩)).pageSize = 30 ∧
     (applyActions ⟨[], 30, false⟩
       (NotificationsFeed.onRefresh ⟨true, some "A", true⟩ []
         ⟨[], 30, false⟩)).pageSize = 30) :=
  ⟨by decide, c5_on_refresh "A" (by decide) [] ⟨[], 30, false⟩⟩

/-- Claim C6: for a loadNotes invocation returning a non-empty store
result, the author set of the author-metadata enrichment subscription
equals the set of distinct author ids of the returned items — in
ReactionsFeed the homepage-contacts-meta subscription, in
NotificationsFeed the metadata filter of the mentions-answers
subscription. -/
theorem c6_metadata_authors (p : String) (hp : p ≠ "") (ns : List Note)
    (hne : ns ≠ []) (lr lp : Option Nat) :
    (∃ A, firstFilterAuthors "homepage-contacts-meta"
        (ReactionsFeed.loadNotes ⟨true, some p, true⟩ ns lr lp) = some A ∧
      A.toFinset = ((ns.map Note.pubkey).dedup).toFinset) ∧
    (∃ A, secondFilterAuthors "mentions-answers"
        (NotificationsFeed.loadNotes ⟨true, some p, true⟩ ns) = some A ∧
      A.toFinset = ((ns.map Note.pubkey).dedup).toFinset) := by
  have hlen : 0 < ns.length := List.length_pos.mpr hne
  constructor
  · refine ⟨ns.map Note.pubkey, ?_,
      List.toFinset.ext fun x => List.mem_dedup.symm⟩
    by_cases hrep : ∃ n ∈ ns, strTruthy n.repost_id = true
    · rw [loadNotesR_trace_repost p hp hlen lr lp hrep]
      rfl
    · rw [loadNotesR_trace_norepost p hp hlen lr lp hrep]
      rfl
  · refine ⟨ns.map Note.pubkey, ?_,
      List.toFinset.ext fun x => List.mem_dedup.symm⟩
    rw [loadNotesN_trace true p hp ns]
    rfl

/-- Witness for c6_metadata_authors: the spec scenario — three items,
three distinct authors, none a repost. -/
theorem c6_witness :
    (("A" : String) ≠ "" ∧ ([noteA, noteB, noteC] : List Note) ≠ []) ∧
    ((∃ A, firstFilterAuthors "homepage-contacts-meta"
        (ReactionsFeed.loadNotes ⟨true, some "A", true⟩
          [noteA, noteB, noteC] none none) = some A ∧
      A.toFinset =
        (([noteA, noteB, noteC].map Note.pubkey).dedup).toFinset) ∧
     (∃ A, secondFilterAuthors "mentions-answers"
        (NotificationsFeed.loadNotes ⟨true, some "A", true⟩
          [noteA, noteB, noteC]) = some A ∧
      A.toFinset =
        (([noteA, noteB, noteC].map Note.pubkey).dedup).toFinset)) :=
  ⟨⟨by decide, by decide⟩,
    c6_metadata_authors "A" (by decide) _ (by decide) none none⟩

/-- Claim C7: along the effect traces that issue the primary subscription
a second time under the same channel name — an onRefresh followed by a
pageSize-growth effect, in either feed — every intermediate relay-pool
state keeps at most one live subscription per channel name, since issuing
a subscription under an existing name retires the prior one and retiring
never duplicates names. -/
theorem c7_no_duplicate_names (env : Env) (ns : List Note)
    (s s2 : FeedState) (p : List (String × List RelayFilters))
    (h : (p.map Prod.fst).Nodup) :
    (∀ q ∈ poolStates p (ReactionsFeed.onRefresh env s ++
        ReactionsFeed.pageSizeEffect env s2),
      (q.map Prod.fst).Nodup) ∧
    (∀ q ∈ poolStates p (NotificationsFeed.onRefresh env ns s ++
        NotificationsFeed.pageSizeEffect env ns s2),
      (q.map Prod.fst).Nodup) :=
  ⟨poolStates_keys_nodup h, poolStates_keys_nodup h⟩

/-- Witness for c7_no_duplicate_names: a pool already holding the primary
channel, refreshed and then grown to pageSize 20. -/
theorem c7_witness :
    (([("homepage-contacts-main", [])] :
        List (String × List RelayFilters)).map Prod.fst).Nodup ∧
    ((∀ q ∈ poolStates [("homepage-contacts-main", [])]
        (ReactionsFeed.onRefresh ⟨true, some "A", true⟩ ⟨[], 10, false⟩ ++
          ReactionsFeed.pageSizeEffect ⟨true, some "A", true⟩
            ⟨[], 20, false⟩),
      (q.map Prod.fst).Nodup) ∧
    (∀ q ∈ poolStates [("homepage-contacts-main", [])]
        (NotificationsFeed.onRefresh ⟨true, some "A", true⟩ []
            ⟨[], 10, false⟩ ++
          NotificationsFeed.pageSizeEffect ⟨true, some "A", true⟩ []
            ⟨[], 20, false⟩),
      (q.map Prod.fst).Nodup)) :=
  ⟨by decide, c7_no_duplicate_names ⟨true, some "A", true⟩ []
    ⟨[], 10, false⟩ ⟨[], 20, false⟩ [("homepage-contacts-main", [])]
    (by decide)⟩

theorem touchesOnly_subscribeNotesR {env : Env} {s : FeedState} :
    ∀ a ∈ ReactionsFeed.subscribeNotes env s,
      touchesOnly ReactionsFeed.channels a := by
  intro a ha
  rcases mem_subscribeNotesR ha with rfl | ⟨fs, rfl⟩
  · trivial
  · show "homepage-contacts-main" ∈ ReactionsFeed.channels
    decide

theorem touchesOnly_loadNotesR {env : Env} {ns : List Note}
    {lr lp : Option Nat} :
    ∀ a ∈ ReactionsFeed.loadNotes env ns lr lp,
      touchesOnly ReactionsFeed.channels a := by
  intro a ha
  rcases mem_loadNotesR ha with ⟨ms, rfl⟩ | ⟨fs, rfl⟩ | ⟨fs, rfl⟩ |
    ⟨fs, rfl⟩ | ⟨fs, rfl⟩
  · trivial
  · show "homepage-contacts-meta" ∈ ReactionsFeed.channels
    decide
  · show "homepage-contacts-reactions" ∈ ReactionsFeed.channels
    decide
  · show "homepage-contacts-replies" ∈ ReactionsFeed.channels
    decide
  · show "homepage-contacts-repost" ∈ ReactionsFeed.channels
    decide

theorem touchesOnly_unsubscribeTraceR {env : Env} :
    ∀ a ∈ ReactionsFeed.unsubscribeTrace env,
      touchesOnly ReactionsFeed.channels a := by
  intro a ha
  unfold ReactionsFeed.unsubscribeTrace at ha
  split at ha
  · rcases List.mem_singleton.mp ha with rfl
    exact fun m hm => hm
  · simp at ha

theorem touchesOnly_mountR {env : Env} {ns : List Note} {lr lp : Option Nat}
    {s : FeedState} :
    ∀ a ∈ ReactionsFeed.mount env ns lr lp s,
      touchesOnly ReactionsFeed.channels a := by
  intro a ha
  unfold ReactionsFeed.mount at ha
  rcases List.mem_append.mp ha with ha | ha
  · rcases List.mem_append.mp ha with ha | ha
    · exact touchesOnly_unsubscribeTraceR a ha
    · exact touchesOnly_subscribeNotesR a ha
  · exact touchesOnly_loadNotesR a ha

theorem touchesOnly_onRefreshR {env : Env} {s : FeedState} :
    ∀ a ∈ ReactionsFeed.onRefresh env s,
      touchesOnly ReactionsFeed.channels a := by
  intro a ha
  unfold ReactionsFeed.onRefresh at ha
  rcases List.mem_cons.mp ha with rfl | ha
  · trivial
  · rcases List.mem_append.mp ha with ha | ha
    · exact touchesOnly_unsubscribeTraceR a ha
    · exact touchesOnly_subscribeNotesR a ha

theorem touchesOnly_pageSizeEffectR {env : Env} {s : FeedState} :
    ∀ a ∈ ReactionsFeed.pageSizeEffect env s,
      touchesOnly ReactionsFeed.channels a := by
  intro a ha
  unfold ReactionsFeed.pageSizeEffect at ha
  split at ha
  · exact touchesOnly_subscribeNotesR a ha
  · simp at ha

/-- Claim C8, counterexample: the NotificationsFeed refresh operation
wipes a subscription owned by another feed from the shared pool — its
unsubscribeAll is not addressed by namespaced channel names. -/
theorem c8_counterexample :
    ("other-feed", ([] : List RelayFilters)) ∈
      ([("other-feed", [])] : List (String × List RelayFilters)) ∧
    ("other-feed", ([] : List RelayFilters)) ∉
      poolRun [("other-feed", [])]
        (NotificationsFeed.onRefresh
          { database := true, publicKey := some "A", relayPool := true }
          [] ⟨[], 10, false⟩) := by
  decide

/-- Claim C8 (amended): every pool mutation of ReactionsFeed (mount,
refresh, pagination, load) is addressed by its five namespaced channel
names, so any pool entry of a foreign name survives those operations
unchanged; NotificationsFeed however retires every subscription in the
pool via unsubscribeAll during mount, refresh, and pagination whenever the
pool is present. -/
theorem c8_frame (env : Env) (s s2 : FeedState) (ns : List Note)
    (lr lp : Option Nat) (p : List (String × List RelayFilters))
    (x : String × List RelayFilters) (hx : x ∈ p)
    (hname : x.1 ∉ ReactionsFeed.channels) :
    x ∈ poolRun p (ReactionsFeed.mount env ns lr lp s) ∧
    x ∈ poolRun p (ReactionsFeed.onRefresh env s) ∧
    x ∈ poolRun p (ReactionsFeed.pageSizeEffect env s2) ∧
    x ∈ poolRun p (ReactionsFeed.loadNotes env ns lr lp) ∧
    (env.relayPool = true →
      Action.unsubscribeAll ∈ NotificationsFeed.onRefresh env ns s ∧
      Action.unsubscribeAll ∈ NotificationsFeed.mount env ns s ∧
      (s2.pageSize > initialPageSize →
        Action.unsubscribeAll ∈
          NotificationsFeed.pageSizeEffect env ns s2)) := by
  refine ⟨poolRun_preserves touchesOnly_mountR hx hname,
    poolRun_preserves touchesOnly_onRefreshR hx hname,
    poolRun_preserves touchesOnly_pageSizeEffectR hx hname,
    poolRun_preserves touchesOnly_loadNotesR hx hname,
    fun hpool => ⟨?_, ?_, fun hgt => ?_⟩⟩
  · simp [NotificationsFeed.onRefresh, hpool]
  · simp [NotificationsFeed.mount, hpool]
  · simp [NotificationsFeed.pageSizeEffect, hpool, hgt]

/-- Witness for c8_frame: a foreign subscription of another feed survives
every ReactionsFeed operation while NotificationsFeed issues
unsubscribeAll. -/
theorem c8_witness :
    (("other-feed", ([] : List RelayFilters)) ∈
        ([("other-feed", [])] : List (String × List RelayFilters)) ∧
      ("other-feed" : String) ∉ ReactionsFeed.channels) ∧
    (("other-feed", ([] : List RelayFilters)) ∈
      poolRun [("other-feed", [])]
        (ReactionsFeed.mount ⟨true, some "A", true⟩ [noteA] none none
          ⟨[], 10, false⟩) ∧
    ("other-feed", ([] : List RelayFilters)) ∈
      poolRun [("other-feed", [])]
        (ReactionsFeed.onRefresh ⟨true, some "A", true⟩ ⟨[], 10, false⟩) ∧
    ("other-feed", ([] : List RelayFilters)) ∈
      poolRun [("other-feed", [])]
        (ReactionsFeed.pageSizeEffect ⟨true, some "A", true⟩
          ⟨[], 20, false⟩) ∧
    ("other-feed", ([] : List RelayFilters)) ∈
      poolRun [("other-feed", [])]
        (ReactionsFeed.loadNotes ⟨true, some "A", true⟩ [noteA]
          none none) ∧
    ((⟨true, some "A", true⟩ : Env).relayPool = true →
      Action.unsubscribeAll ∈
        NotificationsFeed.onRefresh ⟨true, some "A", true⟩ [noteA]
          ⟨[], 10, false⟩ ∧
      Action.unsubscribeAll ∈
        NotificationsFeed.mount ⟨true, some "A", true⟩ [noteA]
          ⟨[], 10, false⟩ ∧
      ((⟨[], 20, false⟩ : FeedState).pageSize > initialPageSize →
        Action.unsubscribeAll ∈
          NotificationsFeed.pageSizeEffect ⟨true, some "A", true⟩ [noteA]
            ⟨[], 20, false⟩))) :=
  ⟨⟨by decide, by decide⟩,
    c8_frame ⟨true, some "A", true⟩ ⟨[], 10, false⟩ ⟨[], 20, false⟩
      [noteA] none none [("other-feed", [])] ("other-feed", [])
      (by decide) (by decide)⟩

/-- Claim C9, counterexample: with the viewer identity absent, onRefresh
in ReactionsFeed is not a no-op — it flips the observable loading flag to
true (and issues an unsubscribe), contradicting the claim that all
operations are no-ops when actorId is absent. -/
theorem c9_counterexample :
    (applyActions ⟨[], 10, false⟩
      (ReactionsFeed.onRefresh
        { database := true, publicKey := none, relayPool := true }
        ⟨[], 10, false⟩)).refreshing = true := by
  decide

/-- Claim C9 (amended): with the viewer identity absent, loadNotes,
subscribeNotes and calculateInitialNotes are complete no-ops in both
feeds; onRefresh however still sets loading to true and still issues its
retirement calls; an absent item id is not a no-op either — the empty
string is substituted into the issued filter instead. -/
theorem c9_absent_actor (db pool : Bool) (s : FeedState) (ns : List Note)
    (lr lp : Option Nat) :
    ReactionsFeed.loadNotes ⟨db, none, pool⟩ ns lr lp = [] ∧
    ReactionsFeed.subscribeNotes ⟨db, none, pool⟩ s = [] ∧
    NotificationsFeed.loadNotes ⟨db, none, pool⟩ ns = [] ∧
    NotificationsFeed.subscribeNotes ⟨db, none, pool⟩ s = [] ∧
    NotificationsFeed.calculateInitialNotes ⟨db, none, pool⟩ s = [] ∧
    ReactionsFeed.onRefresh ⟨db, none, pool⟩ s =
      Action.setRefreshing true ::
        (if pool then [Action.unsubscribe ReactionsFeed.channels]
         else []) ∧
    (applyActions s
      (ReactionsFeed.onRefresh ⟨db, none, pool⟩ s)).refreshing = true ∧
    NotificationsFeed.onRefresh ⟨db, none, pool⟩ ns s =
      Action.setRefreshing true ::
        (if pool then [Action.unsubscribeAll] else []) ∧
    subFiltersOf "homepage-contacts-reactions"
      (ReactionsFeed.loadNotes ⟨true, some "A", true⟩ [noteNoId]
        none none) =
      some [{ kinds := [kindReaction], eTags := [""],
              since := some 0 }] := by
  refine ⟨rfl, rfl, rfl, rfl, rfl, ?_, ?_, ?_, by decide⟩
  · simp [ReactionsFeed.onRefresh, ReactionsFeed.unsubscribeTrace,
      ReactionsFeed.subscribeNotes]
  · cases pool <;>
      simp [ReactionsFeed.onRefresh, ReactionsFeed.unsubscribeTrace,
        ReactionsFeed.subscribeNotes, applyActions, applyAction]
  · simp [NotificationsFeed.onRefresh,
      NotificationsFeed.calculateInitialNotes,
      NotificationsFeed.loadNotes]

/-- Claim C10: for every sequence of pageSize values produced only by
firing scroll triggers, the sequence is non-decreasing and each step grows
pageSize by exactly initialPageSize. -/
theorem c10_pageSize_monotone (margin : Nat) (s : FeedState)
    (evs : List ScrollEvent)
    (h : ∀ e ∈ evs, handleInfinityScroll margin e = true) :
    List.Chain' (fun a b => b = a + initialPageSize)
      (pageSizeTrace margin s evs) ∧
    List.Chain' (fun a b => a ≤ b) (pageSizeTrace margin s evs) := by
  have hchain : List.Chain' (fun a b => b = a + initialPageSize)
      (pageSizeTrace margin s evs) := by
    induction evs generalizing s with
    | nil => simp [pageSizeTrace]
    | cons e t ih =>
      have hstep : pageSizeTrace margin s (e :: t) =
          s.pageSize :: pageSizeTrace margin (scrollStep margin s e) t :=
        rfl
      rw [hstep]
      refine List.chain'_cons'.mpr
        ⟨?_, ih (scrollStep margin s e)
          (fun e2 he2 => h e2 (List.mem_cons_of_mem e he2))⟩
      intro y hy
      have hhead : (pageSizeTrace margin (scrollStep margin s e) t).head?
          = some (scrollStep margin s e).pageSize := by
        cases t <;> rfl
      rw [hhead, Option.mem_some_iff] at hy
      subst hy
      simp [scrollStep, ReactionsFeed.onScroll,
        h e (List.mem_cons_self e t), applyActions, applyAction]
  exact ⟨hchain, hchain.imp fun a b hab => by omega⟩

/-- Witness for c10_pageSize_monotone: two firing scroll events grow the
pageSize sequence 10, 20, 30. -/
theorem c10_witness :
    (∀ e ∈ ([⟨100, 50, 60⟩, ⟨200, 50, 160⟩] : List ScrollEvent),
      handleInfinityScroll 0 e = true) ∧
    (List.Chain' (fun a b => b = a + initialPageSize)
      (pageSizeTrace 0 ⟨[], 10, false⟩
        [⟨100, 50, 60⟩, ⟨200, 50, 160⟩]) ∧
    List.Chain' (fun a b => a ≤ b)
      (pageSizeTrace 0 ⟨[], 10, false⟩
        [⟨100, 50, 60⟩, ⟨200, 50, 160⟩])) :=
  ⟨by decide, c10_pageSize_monotone 0 ⟨[], 10, false⟩
    [⟨100, 50, 60⟩, ⟨200, 50, 160⟩] (by decide)⟩

end Nostros
